import Mathlib

set_option autoImplicit false

/-!
Shallow embedding of the CS144 simple router (`sr_router.c`) and its NAT
extension (`sr_nat.c`).  Machine integers are modelled as `Nat`, reduced
modulo `2^w` exactly where the C code can wrap.  IPv4 addresses, ports and
identifiers appear as the 32/16-bit values used in the C comparisons;
matched `htonl`/`ntohl` or `htons`/`ntohs` conversion pairs are elided, so
a field holds one consistent numeric view of the bytes on the wire.
-/

namespace CS144Router

/-- Modelled from the spec: the 16-bit one's-complement Internet checksum
(the repository's `cksum` lives in `sr_utils.c`, which is not among the
given sources; the spec describes it as the "16-bit one's-complement
Internet checksum").  Bytes are paired big-endian into 16-bit words here;
an odd trailing byte is padded with a zero byte. -/
def cksumSumWords : List Nat → Nat
  | [] => 0
  | [a] => a % 256 * 256
  | a :: b :: rest => a % 256 * 256 + b % 256 + cksumSumWords rest

/-- End-around-carry fold of a word sum down to 16 bits.  The fuel only
serves structural recursion; `s` units always suffice because each round
strictly shrinks a sum of at least `2^16`. -/
def cksumFoldGo (fuel s : Nat) : Nat :=
  match fuel with
  | 0 => s
  | f + 1 => if s < 65536 then s else cksumFoldGo f (s % 65536 + s / 65536)

/-- End-around-carry fold of a word sum down to 16 bits. -/
def cksumFold (s : Nat) : Nat :=
  cksumFoldGo s s

theorem cksumFoldGo_lt (fuel : Nat) : ∀ s, s ≤ fuel → cksumFoldGo fuel s < 65536 := by
  induction fuel with
  | zero =>
    intro s hs
    have : s = 0 := Nat.le_zero.mp hs
    simp [cksumFoldGo, this]
  | succ f ih =>
    intro s hs
    rw [cksumFoldGo]
    split
    · omega
    · exact ih _ (by omega)

theorem cksumFold_lt (s : Nat) : cksumFold s < 65536 :=
  cksumFoldGo_lt s s le_rfl

/-- Modelled from the spec: the Internet checksum of a byte sequence
(one's complement of the folded word sum). -/
def cksum (data : List Nat) : Nat :=
  65535 - cksumFold (cksumSumWords data)

/-- Big-endian serialization of a 16-bit field. -/
def word16 (w : Nat) : List Nat :=
  [w / 256 % 256, w % 256]

/-- Big-endian serialization of a 32-bit field. -/
def word32 (w : Nat) : List Nat :=
  [w / 16777216 % 256, w / 65536 % 256, w / 256 % 256, w % 256]

/-! ## Protocol constants (from `sr_protocol.h`) -/

def ethertype_arp : Nat := 0x0806
def ethertype_ip : Nat := 0x0800
def arp_hrd_ethernet : Nat := 1
def arp_op_request : Nat := 1
def arp_op_reply : Nat := 2
def ETHER_ADDR_LEN : Nat := 6
def IP_ADDR_LEN : Nat := 4
def IP_DF : Nat := 0x4000
def ICMP_DATA_SIZE : Nat := 28

def ip_protocol_icmp : Nat := 1
def ip_protocol_tcp : Nat := 6

def icmp_type_echo_reply : Nat := 0
def icmp_type_desination_unreachable : Nat := 3
def icmp_type_echo_request : Nat := 8
def icmp_type_time_exceeded : Nat := 11

def icmp_code_network_unreachable : Nat := 0
def icmp_code_destination_host_unreachable : Nat := 1
def icmp_code_destination_port_unreachable : Nat := 3

def TCP_SYN_M : Nat := 0x0002
def TCP_FIN_M : Nat := 0x0001

/-- `sr_router.c`: `MIN_IP_HEADER_LENGTH` (in 32-bit words). -/
def MIN_IP_HEADER_LENGTH : Nat := 5
/-- `sr_router.c`: `DEFAULT_TTL`. -/
def DEFAULT_TTL : Nat := 64
/-- `sr_router.c`: `SUPPORTED_IP_VERSION`. -/
def SUPPORTED_IP_VERSION : Nat := 4

/-! ## Data model: headers (`sr_protocol.h`) and router tables -/

/-- `sr_ip_hdr_t`: the IPv4 header fields.  All fields are the numeric
values of the wire bytes (big-endian multi-byte fields). -/
structure IpHeader where
  ip_hl : Nat
  ip_v : Nat
  ip_tos : Nat
  ip_len : Nat
  ip_id : Nat
  ip_off : Nat
  ip_ttl : Nat
  ip_p : Nat
  ip_sum : Nat
  ip_src : Nat
  ip_dst : Nat
  deriving Repr, DecidableEq

/-- An IPv4 datagram: fixed 20-byte header, option bytes (present when
`ip_hl > 5`), and the transport payload bytes. -/
structure IpPacket where
  hdr : IpHeader
  options : List Nat
  payload : List Nat
  deriving Repr, DecidableEq

/-- `getIpHeaderLength`: `ip_hl * 4` bytes. -/
def getIpHeaderLength (h : IpHeader) : Nat :=
  h.ip_hl * 4

/-- Byte serialization of the fixed 20-byte IPv4 header.  The first byte
packs the version in the upper nibble and the header length in the lower
nibble, as the little-endian bitfields of `sr_ip_hdr_t` lay it out. -/
def serializeIpHeader (h : IpHeader) : List Nat :=
  [h.ip_v % 16 * 16 + h.ip_hl % 16, h.ip_tos % 256]
    ++ word16 h.ip_len ++ word16 h.ip_id ++ word16 h.ip_off
    ++ [h.ip_ttl % 256, h.ip_p % 256] ++ word16 h.ip_sum
    ++ word32 h.ip_src ++ word32 h.ip_dst

/-- The full datagram bytes: header, options, payload. -/
def serializeIpPacket (p : IpPacket) : List Nat :=
  serializeIpHeader p.hdr ++ p.options ++ p.payload

/-- The IP header checksum as the router computes it when sending: the
checksum over the first `ip_hl * 4` bytes of the datagram with the
checksum field zeroed. -/
def ipHeaderChecksum (p : IpPacket) : Nat :=
  cksum (List.take (getIpHeaderLength p.hdr)
    (serializeIpPacket { p with hdr := { p.hdr with ip_sum := 0 } }))

/-- `sr_if`: a router interface (name, MAC, IPv4 address). -/
structure RouterIf where
  name : String
  addr : List Nat
  ip : Nat
  deriving Repr, DecidableEq

/-- `sr_rt`: one routing-table row.  `dest` stores the value the code
compares after `ntohl`, `mask` the value used in the bitwise matches. -/
structure RtEntry where
  dest : Nat
  mask : Nat
  gw : Nat
  iface : String
  deriving Repr, DecidableEq

/-! ## Longest-prefix-match lookup (`sr_router.c:networkGetMaskLength`,
`networkGetPacketRoute`) -/

/-- Helper for `networkGetMaskLength`: count set bits downward from bit
`n - 1`, stopping at the first clear bit — the loop over `bitScanner`. -/
def leadingOnes (mask : Nat) : Nat → Nat
  | 0 => 0
  | n + 1 => if mask.testBit n then 1 + leadingOnes mask n else 0

/-- `networkGetMaskLength`: the number of bits set in a 32-bit mask
starting from the most significant, stopping at the first clear bit. -/
def networkGetMaskLength (mask : Nat) : Nat :=
  leadingOnes mask 32

/-- The route-match test of `networkGetPacketRoute`:
`(destIp & mask) == (ntohl(route->dest) & mask)`. -/
def routeMatches (destIp : Nat) (r : RtEntry) : Bool :=
  destIp &&& r.mask == r.dest &&& r.mask

/-- The mask length of the best route so far; `-1` when none was chosen
yet (`int networkMaskLength = -1` in the C). -/
def bestLen : Option RtEntry → Int
  | none => -1
  | some b => (networkGetMaskLength b.mask : Int)

/-- The loop body of `networkGetPacketRoute`: scan the table, replacing
the running best only when the row's mask is strictly longer than the
best's and the row matches the destination. -/
def getRouteGo (destIp : Nat) : List RtEntry → Option RtEntry → Option RtEntry
  | [], best => best
  | r :: rest, best =>
    if (networkGetMaskLength r.mask : Int) > bestLen best then
      if routeMatches destIp r then getRouteGo destIp rest (some r)
      else getRouteGo destIp rest best
    else getRouteGo destIp rest best

/-- `networkGetPacketRoute`: longest-prefix-match lookup over the routing
table. -/
def networkGetPacketRoute (table : List RtEntry) (destIp : Nat) : Option RtEntry :=
  getRouteGo destIp table none

/-- Modelled from the spec, for the refinement claim about route lookup:
keep the first row maximizing the leading-ones length of its mask
(a later row replaces the choice only on a strictly greater length, so of
two equal-length matches the earlier row wins), over exactly the rows
satisfying `(query & mask) == (dest & mask)`; `none` when no row matches. -/
def specChoose (best : Option RtEntry) (r : RtEntry) : Option RtEntry :=
  match best with
  | none => some r
  | some b =>
    if networkGetMaskLength r.mask > networkGetMaskLength b.mask then some r else some b

/-- Modelled from the spec: the route whose mask has the greatest number
of leading 1-bits among the matching rows, first row on ties, `none` if
no row matches. -/
def specLookupRoute (table : List RtEntry) (destIp : Nat) : Option RtEntry :=
  (table.filter (routeMatches destIp)).foldl specChoose none

theorem getRouteGo_eq_foldl (destIp : Nat) (table : List RtEntry) :
    ∀ best : Option RtEntry,
      getRouteGo destIp table best = (table.filter (routeMatches destIp)).foldl specChoose best := by
  induction table with
  | nil => intro best; rfl
  | cons r rest ih =>
    intro best
    by_cases hm : routeMatches destIp r
    · have hf : (r :: rest).filter (routeMatches destIp)
          = r :: rest.filter (routeMatches destIp) := by
        simp [List.filter, hm]
      rw [hf, List.foldl_cons]
      cases best with
      | none =>
        have hgt : (networkGetMaskLength r.mask : Int) > bestLen none := by
          simp [bestLen]
          omega
        rw [getRouteGo, if_pos hgt, if_pos hm, ih]
        rfl
      | some b =>
        by_cases hlen : networkGetMaskLength r.mask > networkGetMaskLength b.mask
        · have hgt : (networkGetMaskLength r.mask : Int) > bestLen (some b) := by
            simp [bestLen]
            exact_mod_cast hlen
          rw [getRouteGo, if_pos hgt, if_pos hm, ih]
          simp [specChoose, hlen]
        · have hgt : ¬ ((networkGetMaskLength r.mask : Int) > bestLen (some b)) := by
            simp [bestLen]
            exact_mod_cast Nat.not_lt.mp hlen
          rw [getRouteGo, if_neg hgt, ih]
          simp [specChoose, hlen]
    · have hf : (r :: rest).filter (routeMatches destIp)
          = rest.filter (routeMatches destIp) := by
        simp [List.filter, hm]
      rw [hf]
      rw [getRouteGo]
      by_cases hgt : (networkGetMaskLength r.mask : Int) > bestLen best
      · rw [if_pos hgt, if_neg hm, ih]
      · rw [if_neg hgt, ih]

/-! ## IPv4 ingress and forwarding (`sr_router.c:networkHandleReceivedIpPacket`,
`networkForwardIpPacket`) -/

/-- The visible outcome of handling a received IP datagram: each
constructor names the routine `sr_router.c` hands the packet to next. -/
inductive RouterAction where
  | dropped
  | handleToUs (p : IpPacket)
  | sendIcmpTtlExpired (original : IpPacket)
  | sendTypeThreeIcmp (code : Nat) (p : IpPacket)
  | arpForward (p : IpPacket) (route : RtEntry)
  deriving Repr, DecidableEq

/-- `networkIpDestinationIsUs`: does the destination IP match any
interface IP? -/
def networkIpDestinationIsUs (ifaces : List RouterIf) (h : IpHeader) : Bool :=
  ifaces.any (fun i => h.ip_dst == i.ip)

/-- `networkIpSourceIsUs`: does the source IP match any interface IP? -/
def networkIpSourceIsUs (ifaces : List RouterIf) (h : IpHeader) : Bool :=
  ifaces.any (fun i => h.ip_src == i.ip)

/-- The validation prologue of `networkHandleReceivedIpPacket`
(`sr_router.c:505-559`): drop when the byte count is below 20, when
`ip_hl < 5`, when the checksum over `ip_hl*4` bytes (checksum field
zeroed) differs from the received one, or when `ip_v != 4`.  On success
the checksum field is put back, so the surviving packet is the received
one unchanged. -/
def networkValidateIpPacket (packet : IpPacket) (length : Nat) : Option IpPacket :=
  if length < 20 then none
  else if packet.hdr.ip_hl ≥ MIN_IP_HEADER_LENGTH then
    if packet.hdr.ip_sum ≠ ipHeaderChecksum packet then none
    else if packet.hdr.ip_v ≠ SUPPORTED_IP_VERSION then none
    else some packet
  else none

/-- The `uint8_t packetTtl = packet->ip_ttl - 1` decrement (wraps at 0). -/
def decrementTtl (t : Nat) : Nat :=
  (t + 255) % 256

/-- The header rewrite a forwarded packet receives before routing: TTL
decremented, checksum zeroed and recomputed (`sr_router.c:579-581`). -/
def forwardRewrite (p : IpPacket) : IpPacket :=
  let h1 : IpHeader := { p.hdr with ip_ttl := decrementTtl p.hdr.ip_ttl, ip_sum := 0 }
  { p with hdr := { h1 with ip_sum := ipHeaderChecksum { p with hdr := h1 } } }

/-- `networkForwardIpPacket` (`sr_router.c:903-935`): look the destination
up in the routing table; forward via the ARP send path when a route is
found whose egress interface differs from the ingress one, otherwise send
an ICMP type-3 network-unreachable. -/
def networkForwardIpPacket (table : List RtEntry) (packet : IpPacket)
    (recvIfName : String) : RouterAction :=
  match networkGetPacketRoute table packet.hdr.ip_dst with
  | some route =>
    if route.iface ≠ recvIfName then .arpForward packet route
    else .sendTypeThreeIcmp icmp_code_network_unreachable packet
  | none => .sendTypeThreeIcmp icmp_code_network_unreachable packet

/-- `networkHandleReceivedIpPacket` with NAT disabled
(`sr_router.c:505-585`): validate, dispatch packets addressed to an
interface IP to the to-us handler, and otherwise decrement the TTL and
either report TTL expiry or forward. -/
def networkHandleReceivedIpPacketNoNat (ifaces : List RouterIf) (table : List RtEntry)
    (packet : IpPacket) (length : Nat) (recvIf : RouterIf) : RouterAction :=
  match networkValidateIpPacket packet length with
  | none => .dropped
  | some p =>
    if networkIpDestinationIsUs ifaces p.hdr then .handleToUs p
    else if decrementTtl p.hdr.ip_ttl = 0 then .sendIcmpTtlExpired p
    else networkForwardIpPacket table (forwardRewrite p) recvIf.name

/-! ## Concrete fixtures used by witnesses -/

/-- Interface `eth3` at `10.0.1.11`, MAC `0e:20:ab:92:e8:b1` (spec scenario 1). -/
def eth3If : RouterIf :=
  { name := "eth3", addr := [0x0E, 0x20, 0xAB, 0x92, 0xE8, 0xB1], ip := 0x0A00010B }

/-- Interface `eth1` (the NAT-internal interface by convention). -/
def eth1If : RouterIf :=
  { name := "eth1", addr := [0x0E, 0x20, 0xAB, 0x01, 0x01, 0x01], ip := 0x0A000201 }

/-- A 20-byte ICMP-carrying IP header from `1.2.3.4` to `107.23.115.131`
with the checksum field still zero. -/
def sampleHdr0 : IpHeader :=
  { ip_hl := 5, ip_v := 4, ip_tos := 0, ip_len := 20, ip_id := 7, ip_off := IP_DF,
    ip_ttl := 64, ip_p := ip_protocol_icmp, ip_sum := 0,
    ip_src := 0x01020304, ip_dst := 0x6B177383 }

/-- The same datagram with its correct header checksum filled in. -/
def samplePacket : IpPacket :=
  { hdr := { sampleHdr0 with
      ip_sum := ipHeaderChecksum { hdr := sampleHdr0, options := [], payload := [] } },
    options := [], payload := [] }

/-! ## Claim theorems: route lookup, ingress validation, forwarding -/

/-- Claim C2: `networkGetPacketRoute` returns the routing-table row whose
mask has the greatest number of leading 1-bits among all rows satisfying
`(query & mask) == (dest & mask)`; of two matching rows with equal
leading-1-bit length the one appearing first in the table is returned;
with no matching row it returns no route. -/
theorem networkGetPacketRoute_is_lpm (table : List RtEntry) (destIp : Nat) :
    networkGetPacketRoute table destIp = specLookupRoute table destIp :=
  getRouteGo_eq_foldl destIp table none

/-- Claim C4: the ingress validator drops a received datagram silently
when it is shorter than 20 bytes, when `ip_hl < 5`, when `ip_v != 4`, or
when the header checksum over `ip_hl*4` bytes (checksum field zeroed)
differs from the received one; on success the surviving packet is the
received one with its checksum field restored. -/
theorem networkValidateIpPacket_spec (ifaces : List RouterIf) (table : List RtEntry)
    (packet : IpPacket) (length : Nat) (recvIf : RouterIf) :
    ((length < 20 ∨ packet.hdr.ip_hl < 5 ∨ packet.hdr.ip_v ≠ 4 ∨
        packet.hdr.ip_sum ≠ ipHeaderChecksum packet) →
      networkHandleReceivedIpPacketNoNat ifaces table packet length recvIf
        = RouterAction.dropped) ∧
    (∀ p, networkValidateIpPacket packet length = some p →
      p = packet ∧ p.hdr.ip_sum = packet.hdr.ip_sum) := by
  constructor
  · intro h
    have hv : networkValidateIpPacket packet length = none := by
      unfold networkValidateIpPacket MIN_IP_HEADER_LENGTH SUPPORTED_IP_VERSION
      split_ifs with h1 h2 h3 h4
      any_goals rfl
      rcases h with h | h | h | h
      all_goals omega
    unfold networkHandleReceivedIpPacketNoNat
    rw [hv]
  · intro p hp
    unfold networkValidateIpPacket at hp
    split_ifs at hp
    cases hp
    exact ⟨rfl, rfl⟩

/-- Witness for claim C4 at a concrete input: a 5-byte-long buffer is
dropped. -/
theorem networkValidateIpPacket_spec_witness :
    networkHandleReceivedIpPacketNoNat [] [] samplePacket 5 eth3If
      = RouterAction.dropped :=
  (networkValidateIpPacket_spec [] [] samplePacket 5 eth3If).1 (Or.inl (by decide))

/-- Claim C1: a validated datagram not addressed to any interface IP has
its TTL decremented; when the decremented TTL is 0 the router hands the
packet to the ICMP time-exceeded routine and forwards nothing; otherwise
the checksum is zeroed and recomputed, the destination is looked up by
longest-prefix match, and the packet goes to the ICMP network-unreachable
(type 3, code 0) routine when no route is found or the chosen egress
interface equals the ingress one, and to the ARP send path with the
chosen route otherwise. -/
theorem forwarding_pipeline_spec (ifaces : List RouterIf) (table : List RtEntry)
    (packet : IpPacket) (length : Nat) (recvIf : RouterIf) (p : IpPacket)
    (hval : networkValidateIpPacket packet length = some p)
    (hnotus : networkIpDestinationIsUs ifaces p.hdr = false) :
    (decrementTtl p.hdr.ip_ttl = 0 →
      networkHandleReceivedIpPacketNoNat ifaces table packet length recvIf
        = RouterAction.sendIcmpTtlExpired p) ∧
    (decrementTtl p.hdr.ip_ttl ≠ 0 →
      (forwardRewrite p).hdr.ip_ttl = decrementTtl p.hdr.ip_ttl ∧
      (forwardRewrite p).hdr.ip_sum = ipHeaderChecksum (forwardRewrite p) ∧
      (forwardRewrite p).hdr.ip_dst = p.hdr.ip_dst ∧
      ((networkGetPacketRoute table p.hdr.ip_dst = none
          ∨ ∃ r, networkGetPacketRoute table p.hdr.ip_dst = some r ∧ r.iface = recvIf.name) →
        networkHandleReceivedIpPacketNoNat ifaces table packet length recvIf
          = RouterAction.sendTypeThreeIcmp icmp_code_network_unreachable (forwardRewrite p)) ∧
      (∀ r, networkGetPacketRoute table p.hdr.ip_dst = some r → r.iface ≠ recvIf.name →
        networkHandleReceivedIpPacketNoNat ifaces table packet length recvIf
          = RouterAction.arpForward (forwardRewrite p) r)) := by
  have hrun : networkHandleReceivedIpPacketNoNat ifaces table packet length recvIf
      = if decrementTtl p.hdr.ip_ttl = 0 then RouterAction.sendIcmpTtlExpired p
        else networkForwardIpPacket table (forwardRewrite p) recvIf.name := by
    unfold networkHandleReceivedIpPacketNoNat
    rw [hval]
    simp only [hnotus, Bool.false_eq_true, if_false]
  constructor
  · intro h0
    rw [hrun, if_pos h0]
  · intro h0
    have hdst : (forwardRewrite p).hdr.ip_dst = p.hdr.ip_dst := rfl
    refine ⟨rfl, ?_, rfl, ?_, ?_⟩
    · show ipHeaderChecksum _ = ipHeaderChecksum _
      unfold ipHeaderChecksum
      rfl
    · intro hroute
      rw [hrun, if_neg h0]
      unfold networkForwardIpPacket
      rw [hdst]
      rcases hroute with hnone | ⟨r, hr, hiface⟩
      · rw [hnone]
      · rw [hr]
        simp [hiface]
    · intro r hr hiface
      rw [hrun, if_neg h0]
      unfold networkForwardIpPacket
      rw [hdst, hr]
      simp [hiface]

/-- Witness for claim C1 at a concrete input: with an empty routing table
the sample datagram draws an ICMP network-unreachable. -/
theorem forwarding_pipeline_spec_witness :
    networkHandleReceivedIpPacketNoNat [] [] samplePacket 20 eth3If
      = RouterAction.sendTypeThreeIcmp icmp_code_network_unreachable
          (forwardRewrite samplePacket) := by
  have h := forwarding_pipeline_spec [] [] samplePacket 20 eth3If samplePacket
    (by decide) (by decide)
  exact ((h.2 (by decide)).2.2.2.1) (Or.inl (by decide))

/-! ## ICMP to the router (`sr_router.c:networkHandleIcmpPacket`,
`networkSendIcmpEchoReply`) -/

/-- `sr_icmp_t0_hdr_t`: an ICMP echo request/reply — type, code, checksum,
identifier, sequence number, then the echo data bytes. -/
structure IcmpEcho where
  icmp_type : Nat
  icmp_code : Nat
  icmp_sum : Nat
  ident : Nat
  seq_num : Nat
  payload : List Nat
  deriving Repr, DecidableEq

/-- Byte serialization of an ICMP echo message. -/
def serializeIcmpEcho (e : IcmpEcho) : List Nat :=
  [e.icmp_type % 256, e.icmp_code % 256] ++ word16 e.icmp_sum
    ++ word16 e.ident ++ word16 e.seq_num ++ e.payload

/-- The ICMP checksum as the router computes and verifies it: over the
whole ICMP message with the checksum field zeroed.  (The source passes
`length - ip_hl*4` as the byte count; the structured view serializes to
exactly those bytes for a length-consistent datagram.) -/
def icmpChecksum (e : IcmpEcho) : Nat :=
  cksum (serializeIcmpEcho { e with icmp_sum := 0 })

/-- An IP datagram whose payload is viewed through the ICMP echo header
cast, as `networkHandleIcmpPacket` views its buffer. -/
structure IcmpIpPacket where
  hdr : IpHeader
  options : List Nat
  icmp : IcmpEcho
  deriving Repr, DecidableEq

/-- `networkSendIcmpEchoReply` (`sr_router.c:703-748`): build the echo
reply for a received echo request.  `c` is the monotonically incremented
16-bit `ipIdentifyNumber` counter; `length` the received datagram byte
count (`ip_len` of the reply is `htons((uint16_t)length)`).  The reply's
identifier, sequence number and data come from the single `memcpy` of the
request bytes past the 4-byte generic ICMP header. -/
def networkSendIcmpEchoReply (request : IcmpIpPacket) (length c : Nat) :
    IcmpIpPacket × Nat :=
  let replyIcmp0 : IcmpEcho :=
    { icmp_type := icmp_type_echo_reply, icmp_code := 0, icmp_sum := 0,
      ident := request.icmp.ident, seq_num := request.icmp.seq_num,
      payload := request.icmp.payload }
  let replyHdr0 : IpHeader :=
    { ip_v := SUPPORTED_IP_VERSION, ip_hl := MIN_IP_HEADER_LENGTH, ip_tos := 0,
      ip_len := length % 65536, ip_id := c % 65536, ip_off := IP_DF,
      ip_ttl := DEFAULT_TTL, ip_p := ip_protocol_icmp, ip_sum := 0,
      ip_src := request.hdr.ip_dst, ip_dst := request.hdr.ip_src }
  ({ hdr := { replyHdr0 with ip_sum := cksum (serializeIpHeader replyHdr0) },
     options := [],
     icmp := { replyIcmp0 with icmp_sum := icmpChecksum replyIcmp0 } },
   (c + 1) % 65536)

/-- `networkHandleIcmpPacket` (`sr_router.c:662-695`): verify the ICMP
checksum, dropping on mismatch; answer an echo request with an echo
reply; log and discard every other ICMP type.  Returns the reply and the
advanced identification counter when one is sent. -/
def networkHandleIcmpPacket (packet : IcmpIpPacket) (length c : Nat) :
    Option (IcmpIpPacket × Nat) :=
  if packet.icmp.icmp_sum ≠ icmpChecksum packet.icmp then none
  else if packet.icmp.icmp_type = icmp_type_echo_request then
    some (networkSendIcmpEchoReply packet length c)
  else none

/-- Claim C3: an ICMP echo request whose checksum verifies (reaching the
handler because it was addressed to an interface IP) is answered with an
echo reply whose IP source/destination swap the request's, whose TTL is
64, whose Don't-Fragment flag is set, whose identification comes from the
incrementing 16-bit counter, and whose echo identifier, sequence number
and payload equal the request's byte for byte. -/
theorem icmp_echo_reply_spec (packet : IcmpIpPacket) (length c : Nat)
    (hsum : packet.icmp.icmp_sum = icmpChecksum packet.icmp)
    (htype : packet.icmp.icmp_type = icmp_type_echo_request) :
    ∃ reply c', networkHandleIcmpPacket packet length c = some (reply, c') ∧
      reply.hdr.ip_src = packet.hdr.ip_dst ∧
      reply.hdr.ip_dst = packet.hdr.ip_src ∧
      reply.hdr.ip_ttl = 64 ∧
      reply.hdr.ip_off = IP_DF ∧
      reply.hdr.ip_id = c % 65536 ∧
      c' = (c + 1) % 65536 ∧
      reply.icmp.icmp_type = icmp_type_echo_reply ∧
      reply.icmp.ident = packet.icmp.ident ∧
      reply.icmp.seq_num = packet.icmp.seq_num ∧
      reply.icmp.payload = packet.icmp.payload := by
  refine ⟨(networkSendIcmpEchoReply packet length c).1,
    (networkSendIcmpEchoReply packet length c).2, ?_, by rfl, by rfl, by rfl, by rfl,
    by rfl, by rfl, by rfl, by rfl, by rfl, by rfl⟩
  unfold networkHandleIcmpPacket
  rw [if_neg (by rw [hsum]; exact fun h => h rfl), if_pos htype]

/-- A concrete ICMP echo request from `64.121.20.36` to `10.0.1.11` with
identifier `0x4242`, sequence 1, four data bytes, correct checksum. -/
def sampleEchoIcmp0 : IcmpEcho :=
  { icmp_type := icmp_type_echo_request, icmp_code := 0, icmp_sum := 0,
    ident := 0x4242, seq_num := 1, payload := [0xDE, 0xAD, 0xBE, 0xEF] }

/-- The IP header of the sample echo request. -/
def sampleEchoHdr : IpHeader :=
  { ip_hl := 5, ip_v := 4, ip_tos := 0, ip_len := 32, ip_id := 77,
    ip_off := 0, ip_ttl := 63, ip_p := ip_protocol_icmp, ip_sum := 0,
    ip_src := 0x40791424, ip_dst := 0x0A00010B }

/-- The sample echo request datagram (12 bytes of IP payload, 32 total). -/
def sampleEchoRequest : IcmpIpPacket :=
  { hdr := sampleEchoHdr,
    options := [],
    icmp := { sampleEchoIcmp0 with icmp_sum := icmpChecksum sampleEchoIcmp0 } }

/-- Witness for claim C3 at the concrete sample echo request. -/
theorem icmp_echo_reply_spec_witness :
    ∃ reply c', networkHandleIcmpPacket sampleEchoRequest 32 9 = some (reply, c') ∧
      reply.hdr.ip_src = sampleEchoRequest.hdr.ip_dst ∧
      reply.hdr.ip_dst = sampleEchoRequest.hdr.ip_src ∧
      reply.hdr.ip_ttl = 64 ∧
      reply.hdr.ip_off = IP_DF ∧
      reply.hdr.ip_id = 9 % 65536 ∧
      c' = (9 + 1) % 65536 ∧
      reply.icmp.icmp_type = icmp_type_echo_reply ∧
      reply.icmp.ident = sampleEchoRequest.icmp.ident ∧
      reply.icmp.seq_num = sampleEchoRequest.icmp.seq_num ∧
      reply.icmp.payload = sampleEchoRequest.icmp.payload :=
  icmp_echo_reply_spec sampleEchoRequest 32 9 (by decide) (by decide)

/-! ## ICMP time-exceeded construction (`sr_router.c:networkSendIcmpTtlExpired`) -/

/-- The 28 data bytes of a type-3/type-11 ICMP error: the `memcpy` grabs
`ICMP_DATA_SIZE` bytes starting at the original IP header (zero padding
models the bytes past a shorter datagram). -/
def icmpDataBytes (p : IpPacket) : List Nat :=
  List.take ICMP_DATA_SIZE (serializeIpPacket p ++ List.replicate ICMP_DATA_SIZE 0)

/-- A generated ICMP type-3/type-11 error packet (`sr_icmp_t3_hdr_t`
layout: type, code, checksum, 4 unused bytes, 28 data bytes).  The source
leaves the unused word of a time-exceeded reply unwritten; it is carried
here as a field so the counterexamples fix a concrete value. -/
structure IcmpErrPacket where
  hdr : IpHeader
  icmp_type : Nat
  icmp_code : Nat
  icmp_sum : Nat
  unused : Nat
  data : List Nat
  deriving Repr, DecidableEq

/-- Byte serialization of the 36-byte ICMP error message. -/
def serializeIcmpErr (t c s u : Nat) (data : List Nat) : List Nat :=
  [t % 256, c % 256] ++ word16 s ++ word32 u ++ data

/-- `networkSendIcmpTtlExpired` (`sr_router.c:854-892`): build the ICMP
type-11 packet for a TTL-expired datagram.  The new IP source is the
*receiving* interface's IP (`replyIpHeader->ip_src = receivedInterface->ip`),
the destination the original sender; the packet is then routed along
`networkGetPacketRoute` of the original source. -/
def networkSendIcmpTtlExpired (recvIf : RouterIf) (original : IpPacket) (c : Nat) :
    IcmpErrPacket × Nat :=
  let hdr0 : IpHeader :=
    { ip_v := SUPPORTED_IP_VERSION, ip_hl := MIN_IP_HEADER_LENGTH, ip_tos := 0,
      ip_len := 56, ip_id := c % 65536, ip_off := IP_DF,
      ip_ttl := DEFAULT_TTL, ip_p := ip_protocol_icmp, ip_sum := 0,
      ip_src := recvIf.ip, ip_dst := original.hdr.ip_src }
  let data := icmpDataBytes original
  ({ hdr := { hdr0 with ip_sum := cksum (serializeIpHeader hdr0) },
     icmp_type := icmp_type_time_exceeded, icmp_code := 0,
     icmp_sum := cksum (serializeIcmpErr icmp_type_time_exceeded 0 0 0 data),
     unused := 0, data := data },
   (c + 1) % 65536)

/-- `sr_get_interface`: find an interface by name. -/
def sr_get_interface (ifaces : List RouterIf) (name : String) : Option RouterIf :=
  ifaces.find? (fun i => i.name == name)

/-- The default route via `eth1` used in the claim C5 counterexample. -/
def c5Route : RtEntry := { dest := 0, mask := 0, gw := 0x0A000201, iface := "eth1" }

/-- Counterexample to claim C5 as stated: the sample datagram (source
`1.2.3.4`) arrives on `eth3`, but the routing lookup for `1.2.3.4`
selects `eth1` (IP `10.0.2.1`); the generated time-exceeded packet's IP
source is `eth3`'s IP, not the lookup-selected interface's IP. -/
theorem ttl_expired_source_counterexample :
    networkGetPacketRoute [c5Route] samplePacket.hdr.ip_src = some c5Route ∧
    sr_get_interface [eth1If, eth3If] c5Route.iface = some eth1If ∧
    (networkSendIcmpTtlExpired eth3If samplePacket 0).1.hdr.ip_src ≠ eth1If.ip ∧
    (networkSendIcmpTtlExpired eth3If samplePacket 0).1.hdr.ip_src = eth3If.ip := by
  decide

/-- Claim C5 as amended: the generated ICMP time-exceeded packet's IP
source equals the IP of the interface the expired datagram was received
on, and its IP destination equals the original sender's IP. -/
theorem ttl_expired_addresses (recvIf : RouterIf) (original : IpPacket) (c : Nat) :
    (networkSendIcmpTtlExpired recvIf original c).1.hdr.ip_src = recvIf.ip ∧
    (networkSendIcmpTtlExpired recvIf original c).1.hdr.ip_dst = original.hdr.ip_src :=
  ⟨rfl, rfl⟩

/-! ## ARP handling (`sr_router.c:linkHandleReceivedArpPacket`) -/

/-- `sr_arp_hdr_t`: the fixed 28-byte ARP packet. -/
structure ArpPacket where
  ar_hrd : Nat
  ar_pro : Nat
  ar_hln : Nat
  ar_pln : Nat
  ar_op : Nat
  ar_sha : List Nat
  ar_sip : Nat
  ar_tha : List Nat
  ar_tip : Nat
  deriving Repr, DecidableEq

/-- An emitted Ethernet frame carrying an ARP packet. -/
structure ArpFrame where
  ether_dhost : List Nat
  ether_shost : List Nat
  ether_type : Nat
  arp : ArpPacket
  deriving Repr, DecidableEq

/-- The outcome of `linkHandleReceivedArpPacket`: either nothing is
emitted, exactly one ARP reply frame is emitted, or the ARP-reply
processing path (cache insert and pending-queue flush, outside the claims
modelled here) runs. -/
inductive ArpAction where
  | ignored
  | sendReply (f : ArpFrame)
  | handleReply
  deriving Repr, DecidableEq

/-- `linkHandleReceivedArpPacket` (`sr_router.c:385-494`): drop short or
non-Ethernet/IPv4 ARP packets; answer a request targeting the receiving
interface's IP with an ARP reply built from that interface's MAC and IP
and the requester's MAC and IP; requests for other IPs fall through the
`switch` emitting nothing. -/
def linkHandleReceivedArpPacket (iface : RouterIf) (packet : ArpPacket)
    (length : Nat) : ArpAction :=
  if length < 28 then .ignored
  else if packet.ar_pro ≠ ethertype_ip ∨ packet.ar_hrd ≠ arp_hrd_ethernet
      ∨ packet.ar_pln ≠ IP_ADDR_LEN ∨ packet.ar_hln ≠ ETHER_ADDR_LEN then .ignored
  else if packet.ar_op = arp_op_request then
    if packet.ar_tip = iface.ip then
      .sendReply
        { ether_dhost := packet.ar_sha, ether_shost := iface.addr,
          ether_type := ethertype_arp,
          arp :=
            { ar_hrd := arp_hrd_ethernet, ar_pro := ethertype_ip,
              ar_hln := ETHER_ADDR_LEN, ar_pln := IP_ADDR_LEN,
              ar_op := arp_op_reply, ar_sha := iface.addr, ar_sip := iface.ip,
              ar_tha := packet.ar_sha, ar_tip := packet.ar_sip } }
    else .ignored
  else if packet.ar_op = arp_op_reply then .handleReply
  else .ignored

/-- Claim C6: a well-formed ARP request whose target IP is the receiving
interface's IP draws exactly one ARP reply on that interface, with
Ethernet and ARP sender MAC equal to the interface's MAC, sender IP equal
to the interface's IP, and target MAC/IP equal to the requester's; a
request for any other target IP emits nothing. -/
theorem arp_request_reply_spec (iface : RouterIf) (packet : ArpPacket) (length : Nat)
    (hlen : 28 ≤ length)
    (hpro : packet.ar_pro = ethertype_ip) (hhrd : packet.ar_hrd = arp_hrd_ethernet)
    (hpln : packet.ar_pln = IP_ADDR_LEN) (hhln : packet.ar_hln = ETHER_ADDR_LEN)
    (hop : packet.ar_op = arp_op_request) :
    (packet.ar_tip = iface.ip →
      ∃ f, linkHandleReceivedArpPacket iface packet length = ArpAction.sendReply f ∧
        f.ether_dhost = packet.ar_sha ∧
        f.ether_shost = iface.addr ∧
        f.ether_type = ethertype_arp ∧
        f.arp.ar_op = arp_op_reply ∧
        f.arp.ar_sha = iface.addr ∧
        f.arp.ar_sip = iface.ip ∧
        f.arp.ar_tha = packet.ar_sha ∧
        f.arp.ar_tip = packet.ar_sip) ∧
    (packet.ar_tip ≠ iface.ip →
      linkHandleReceivedArpPacket iface packet length = ArpAction.ignored) := by
  have hrun : ∀ a : ArpAction,
      ((if packet.ar_tip = iface.ip then
          ArpAction.sendReply
            { ether_dhost := packet.ar_sha, ether_shost := iface.addr,
              ether_type := ethertype_arp,
              arp :=
                { ar_hrd := arp_hrd_ethernet, ar_pro := ethertype_ip,
                  ar_hln := ETHER_ADDR_LEN, ar_pln := IP_ADDR_LEN,
                  ar_op := arp_op_reply, ar_sha := iface.addr, ar_sip := iface.ip,
                  ar_tha := packet.ar_sha, ar_tip := packet.ar_sip } }
        else ArpAction.ignored) = a) →
      linkHandleReceivedArpPacket iface packet length = a := by
    intro a ha
    unfold linkHandleReceivedArpPacket
    rw [if_neg (by omega), if_neg (by tauto), if_pos hop]
    exact ha
  constructor
  · intro htip
    exact ⟨_, hrun _ (if_pos htip), rfl, rfl, rfl, rfl, rfl, rfl, rfl, rfl⟩
  · intro htip
    exact hrun _ (if_neg htip)

/-- The concrete ARP request of spec scenario 1: sender `10.0.1.1` at
`0e:20:ab:80:00:02`, target `10.0.1.11`, received on `eth3`. -/
def sampleArpRequest : ArpPacket :=
  { ar_hrd := 1, ar_pro := 0x0800, ar_hln := 6, ar_pln := 4, ar_op := 1,
    ar_sha := [0x0E, 0x20, 0xAB, 0x80, 0x00, 0x02], ar_sip := 0x0A000101,
    ar_tha := [0, 0, 0, 0, 0, 0], ar_tip := 0x0A00010B }

/-- Witness for claim C6 at spec scenario 1's concrete ARP request. -/
theorem arp_request_reply_spec_witness :
    ∃ f, linkHandleReceivedArpPacket eth3If sampleArpRequest 28 = ArpAction.sendReply f ∧
      f.ether_dhost = sampleArpRequest.ar_sha ∧
      f.ether_shost = eth3If.addr ∧
      f.ether_type = ethertype_arp ∧
      f.arp.ar_op = arp_op_reply ∧
      f.arp.ar_sha = eth3If.addr ∧
      f.arp.ar_sip = eth3If.ip ∧
      f.arp.ar_tha = sampleArpRequest.ar_sha ∧
      f.arp.ar_tip = sampleArpRequest.ar_sip :=
  (arp_request_reply_spec eth3If sampleArpRequest 28 (by decide) (by decide) (by decide)
    (by decide) (by decide) (by decide)).1 (by decide)

/-! ## NAT data model (`sr_nat.h`, `sr_nat.c`) -/

/-- `sr_nat_mapping_type`. -/
inductive NatMappingType where
  | icmp
  | tcp
  deriving Repr, DecidableEq

/-- `sr_nat_connection` states (`nat_conn_*`). -/
inductive TcpConnState where
  | outboundSyn
  | connected
  | timeWait
  | inboundSynPending
  deriving Repr, DecidableEq

/-- `sr_tcp_hdr_t`: the TCP header fields. -/
structure TcpHeader where
  sourcePort : Nat
  destinationPort : Nat
  sequenceNumber : Nat
  acknowledgmentNumber : Nat
  offset_controlBits : Nat
  window : Nat
  checksum : Nat
  urgentPointer : Nat
  deriving Repr, DecidableEq

/-- An IP datagram viewed through the TCP header cast. -/
structure TcpIpPacket where
  hdr : IpHeader
  options : List Nat
  tcp : TcpHeader
  tcpPayload : List Nat
  deriving Repr, DecidableEq

/-- `sr_nat_connection`: one TCP connection record of a mapping.
`lastAccessed` is `none` while the field is still unwritten (the inbound
simultaneous-open path never initializes it in the source). -/
structure NatConnection where
  connectionState : TcpConnState
  lastAccessed : Option Nat
  queuedInboundSyn : Option TcpIpPacket
  extIp : Nat
  extPort : Nat
  deriving Repr, DecidableEq

/-- `sr_nat_mapping`: one NAT translation entry.  `ip_ext` is carried as
a plain field; `natTrustedCreateMapping` in the source never writes it
(it stays uninitialized memory), so nothing below relies on the value the
creation path gives it. -/
structure NatMapping where
  type : NatMappingType
  ip_int : Nat
  ip_ext : Nat
  aux_int : Nat
  aux_ext : Nat
  last_updated : Nat
  conns : List NatConnection
  deriving Repr, DecidableEq

/-- Modelled from the spec: `STARTING_PORT_NUMBER` of the port/identifier
allocator (the spec gives the range 50000 - 59999; the constant lives in
`sr_nat.h`, which is not among the given sources). -/
def STARTING_PORT_NUMBER : Nat := 50000

/-- Modelled from the spec: `LAST_PORT_NUMBER` of the allocator range. -/
def LAST_PORT_NUMBER : Nat := 59999

/-- The match condition of `natTrustedLookupExternal`: same type and
external port/identifier. -/
def natMatchExternal (aux_ext : Nat) (t : NatMappingType) (m : NatMapping) : Bool :=
  m.type == t && m.aux_ext == aux_ext

/-- The match condition of `natTrustedLookupInternal`: same type,
internal IP and internal port/identifier. -/
def natMatchInternal (ip_int aux_int : Nat) (t : NatMappingType) (m : NatMapping) : Bool :=
  m.type == t && m.ip_int == ip_int && m.aux_int == aux_int

/-- The shared shape of `sr_nat_lookup_external` / `sr_nat_lookup_internal`
(`sr_nat.c:314-365`): walk the list for the first mapping satisfying the
match condition; on a hit set that mapping's `last_updated` to the
current time and return a copy of it, leaving everything else as it was;
on a miss return `NULL` and the untouched table. -/
def natLookupTouch (pred : NatMapping → Bool) (now : Nat) :
    List NatMapping → Option NatMapping × List NatMapping
  | [] => (none, [])
  | m :: rest =>
    if pred m then
      (some { m with last_updated := now }, { m with last_updated := now } :: rest)
    else
      ((natLookupTouch pred now rest).1, m :: (natLookupTouch pred now rest).2)

/-- `sr_nat_lookup_external` over the mapping list, with the updated
table returned alongside the copy. -/
def sr_nat_lookup_external (mappings : List NatMapping) (aux_ext : Nat)
    (t : NatMappingType) (now : Nat) : Option NatMapping × List NatMapping :=
  natLookupTouch (natMatchExternal aux_ext t) now mappings

/-- `sr_nat_lookup_internal` over the mapping list. -/
def sr_nat_lookup_internal (mappings : List NatMapping) (ip_int aux_int : Nat)
    (t : NatMappingType) (now : Nat) : Option NatMapping × List NatMapping :=
  natLookupTouch (natMatchInternal ip_int aux_int t) now mappings

theorem natLookupTouch_miss (pred : NatMapping → Bool) (now : Nat) :
    ∀ l : List NatMapping, (∀ m ∈ l, pred m = false) →
      natLookupTouch pred now l = (none, l) := by
  intro l
  induction l with
  | nil => intro _; rfl
  | cons m rest ih =>
    intro h
    have hm : pred m = false := h m (List.mem_cons_self m rest)
    have hrest := ih (fun x hx => h x (List.mem_cons_of_mem m hx))
    rw [natLookupTouch, if_neg (by simp [hm]), hrest]

theorem natLookupTouch_hit (pred : NatMapping → Bool) (now : Nat) :
    ∀ (l : List NatMapping) (c : NatMapping) (tbl : List NatMapping),
      natLookupTouch pred now l = (some c, tbl) →
      ∃ pre m post, l = pre ++ m :: post ∧
        (∀ x ∈ pre, pred x = false) ∧
        pred m = true ∧
        c = { m with last_updated := now } ∧
        tbl = pre ++ { m with last_updated := now } :: post := by
  intro l
  induction l with
  | nil => intro c tbl h; exact absurd h (by simp [natLookupTouch])
  | cons m rest ih =>
    intro c tbl h
    rw [natLookupTouch] at h
    by_cases hm : pred m
    · rw [if_pos hm] at h
      have hc : c = { m with last_updated := now } :=
        (Option.some.inj (congrArg Prod.fst h)).symm
      have htbl : tbl = { m with last_updated := now } :: rest :=
        (congrArg Prod.snd h).symm
      exact ⟨[], m, rest, by simp, by simp, hm, hc, by simp [htbl]⟩
    · rw [if_neg hm] at h
      have h1 : (natLookupTouch pred now rest).1 = some c := congrArg Prod.fst h
      have h2 : m :: (natLookupTouch pred now rest).2 = tbl := congrArg Prod.snd h
      have h3 : natLookupTouch pred now rest = (some c, (natLookupTouch pred now rest).2) := by
        rw [← h1]
      obtain ⟨pre, mm, post, hsplit, hpre, hmm, hc, htbl⟩ := ih c _ h3
      refine ⟨m :: pre, mm, post, by simp [hsplit], ?_, hmm, hc, ?_⟩
      · intro x hx
        rcases List.mem_cons.mp hx with hx | hx
        · rw [hx]
          exact Bool.eq_false_iff.mpr hm
        · exact hpre x hx
      · rw [← h2, htbl]
        simp

/-- Claim C10: a NAT lookup that finds a matching mapping sets that
mapping's `last_updated` to the current time and returns a copy equal to
the stored entry, every other field, every other mapping and the table
order staying as they were; a miss returns `NULL` and the table is
untouched.  Stated for both `sr_nat_lookup_external` and
`sr_nat_lookup_internal`. -/
theorem nat_lookup_frame_spec (mappings : List NatMapping) (ip aux : Nat)
    (t : NatMappingType) (now : Nat) :
    ((∀ m ∈ mappings, natMatchExternal aux t m = false) →
      sr_nat_lookup_external mappings aux t now = (none, mappings)) ∧
    (∀ c tbl, sr_nat_lookup_external mappings aux t now = (some c, tbl) →
      ∃ pre m post, mappings = pre ++ m :: post ∧
        (∀ x ∈ pre, natMatchExternal aux t x = false) ∧
        natMatchExternal aux t m = true ∧
        c = { m with last_updated := now } ∧
        tbl = pre ++ { m with last_updated := now } :: post) ∧
    ((∀ m ∈ mappings, natMatchInternal ip aux t m = false) →
      sr_nat_lookup_internal mappings ip aux t now = (none, mappings)) ∧
    (∀ c tbl, sr_nat_lookup_internal mappings ip aux t now = (some c, tbl) →
      ∃ pre m post, mappings = pre ++ m :: post ∧
        (∀ x ∈ pre, natMatchInternal ip aux t x = false) ∧
        natMatchInternal ip aux t m = true ∧
        c = { m with last_updated := now } ∧
        tbl = pre ++ { m with last_updated := now } :: post) :=
  ⟨natLookupTouch_miss _ now mappings,
   fun c tbl h => natLookupTouch_hit _ now mappings c tbl h,
   natLookupTouch_miss _ now mappings,
   fun c tbl h => natLookupTouch_hit _ now mappings c tbl h⟩

/-- A concrete ICMP mapping: internal `10.0.1.100`, identifier `0x4242`,
external identifier 50000. -/
def sampleIcmpMapping : NatMapping :=
  { type := NatMappingType.icmp, ip_int := 0x0A000164, ip_ext := 0x0A00010B,
    aux_int := 0x4242, aux_ext := 50000, last_updated := 3, conns := [] }

/-- A concrete TCP mapping: internal `10.0.1.50:12345`, external port 50010. -/
def sampleTcpMapping : NatMapping :=
  { type := NatMappingType.tcp, ip_int := 0x0A000132, ip_ext := 0x0A00010B,
    aux_int := 12345, aux_ext := 50010, last_updated := 4, conns := [] }

/-- Witness for claim C10: in the two-entry table the external TCP lookup
for port 50010 skips the ICMP entry, touches the TCP entry's
`last_updated`, and returns it as the copy. -/
theorem nat_lookup_frame_spec_witness :
    ∃ pre m post, [sampleIcmpMapping, sampleTcpMapping] = pre ++ m :: post ∧
      (∀ x ∈ pre, natMatchExternal 50010 NatMappingType.tcp x = false) ∧
      natMatchExternal 50010 NatMappingType.tcp m = true ∧
      { sampleTcpMapping with last_updated := 9 } = { m with last_updated := 9 } ∧
      [sampleIcmpMapping, { sampleTcpMapping with last_updated := 9 }]
        = pre ++ { m with last_updated := 9 } :: post :=
  (nat_lookup_frame_spec [sampleIcmpMapping, sampleTcpMapping] 0 50010
    NatMappingType.tcp 9).2.1 { sampleTcpMapping with last_updated := 9 }
    [sampleIcmpMapping, { sampleTcpMapping with last_updated := 9 }] (by decide)

/-! ## NAT inbound TCP handling (`sr_nat.c:natHandleTcpPacket`, inbound
branch, lines 902-1020) -/

/-- The query half of `natTrustedFindConnection`: first connection of the
mapping whose external endpoint matches. -/
def findConnQuery (conns : List NatConnection) (ip port : Nat) : Option NatConnection :=
  conns.find? (fun c => c.extIp == ip && c.extPort == port)

/-- The mutation half of `natTrustedFindConnection` plus the state write
the caller performs through the shared pointer: touch the first matching
connection's `lastAccessed` and optionally move it to a new state. -/
def touchConn (ip port now : Nat) (st : Option TcpConnState) :
    List NatConnection → List NatConnection
  | [] => []
  | c :: rest =>
    if c.extIp == ip && c.extPort == port then
      { c with lastAccessed := some now,
               connectionState := st.getD c.connectionState } :: rest
    else c :: touchConn ip port now st rest

/-- Apply a rewrite to the first mapping matching an external key — the
in-place mutation the source performs through `natTrustedLookupExternal`'s
shared pointer. -/
def updateFirstMappingExt (aux : Nat) (t : NatMappingType) (g : NatMapping → NatMapping) :
    List NatMapping → List NatMapping
  | [] => []
  | m :: rest =>
    if natMatchExternal aux t m then g m :: rest
    else m :: updateFirstMappingExt aux t g rest

/-- First mapping matching an external key (the pure view of
`natTrustedLookupExternal`). -/
def getMappingExt (mappings : List NatMapping) (aux : Nat) (t : NatMappingType) :
    Option NatMapping :=
  mappings.find? (natMatchExternal aux t)

/-- What the inbound TCP branch does with a packet: reply with an ICMP
port-unreachable, finish silently (drop or queue), or hand the packet and
the mapping copy to `natHandleReceivedInboundIpPacket`. -/
inductive NatTcpAction where
  | icmpPortUnreachable (p : TcpIpPacket)
  | dropSilently
  | forwardInbound (p : TcpIpPacket) (m : NatMapping)
  deriving Repr, DecidableEq

/-- The freshly allocated simultaneous-open candidate connection
(`sr_nat.c:930-945`): state `INBOUND_SYN_PENDING`, a copy of the SYN
queued, the external peer recorded; `lastAccessed` is left unwritten. -/
def pendingSynConn (pkt : TcpIpPacket) : NatConnection :=
  { connectionState := TcpConnState.inboundSynPending, lastAccessed := none,
    queuedInboundSyn := some pkt, extIp := pkt.hdr.ip_src,
    extPort := pkt.tcp.sourcePort }

/-- Rewrite a mapping by touching (and optionally moving the state of)
the connection for one external peer — what the source does through the
`natTrustedFindConnection` shared pointer. -/
def touchConnsOf (ip port now : Nat) (st : Option TcpConnState) (mm : NatMapping) :
    NatMapping :=
  { mm with conns := touchConn ip port now st mm.conns }

/-- Rewrite a mapping by prepending the simultaneous-open candidate
connection (`connection->next = sharedNatMapping->conns; ...`). -/
def consPendingOf (pkt : TcpIpPacket) (mm : NatMapping) : NatMapping :=
  { mm with conns := pendingSynConn pkt :: mm.conns }

/-- The inbound branch of `natHandleTcpPacket` after the external lookup
(`sr_nat.c:902-1020`), with the lookup's copy and updated table passed
in.  An inbound SYN with no mapping is answered with port-unreachable; a
SYN on a mapping with no connection for that peer queues a
simultaneous-open candidate and emits nothing; a SYN on an
`OUTBOUND_SYN` connection completes it to `CONNECTED` and forwards; a
retried SYN on a pending connection is dropped; a non-SYN with no
mapping draws port-unreachable; a FIN moves its connection to
`TIME_WAIT` and forwards; any other segment forwards when a connection
exists and is dropped silently otherwise. -/
def natHandleTcpInboundCore (natMapping : Option NatMapping) (nat1 : List NatMapping)
    (pkt : TcpIpPacket) (now : Nat) : List NatMapping × NatTcpAction :=
  if pkt.tcp.offset_controlBits &&& TCP_SYN_M ≠ 0 then
    match natMapping with
    | none => (nat1, NatTcpAction.icmpPortUnreachable pkt)
    | some m =>
      match findConnQuery m.conns pkt.hdr.ip_src pkt.tcp.sourcePort with
      | none =>
        (updateFirstMappingExt pkt.tcp.destinationPort NatMappingType.tcp
          (consPendingOf pkt) nat1,
         NatTcpAction.dropSilently)
      | some c =>
        if c.connectionState = TcpConnState.inboundSynPending then
          (updateFirstMappingExt pkt.tcp.destinationPort NatMappingType.tcp
            (touchConnsOf pkt.hdr.ip_src pkt.tcp.sourcePort now none) nat1,
           NatTcpAction.dropSilently)
        else if c.connectionState = TcpConnState.outboundSyn then
          (updateFirstMappingExt pkt.tcp.destinationPort NatMappingType.tcp
            (touchConnsOf pkt.hdr.ip_src pkt.tcp.sourcePort now
              (some TcpConnState.connected)) nat1,
           NatTcpAction.forwardInbound pkt m)
        else
          (updateFirstMappingExt pkt.tcp.destinationPort NatMappingType.tcp
            (touchConnsOf pkt.hdr.ip_src pkt.tcp.sourcePort now none) nat1,
           NatTcpAction.forwardInbound pkt m)
  else
    match natMapping with
    | none => (nat1, NatTcpAction.icmpPortUnreachable pkt)
    | some m =>
      if pkt.tcp.offset_controlBits &&& TCP_FIN_M ≠ 0 then
        (updateFirstMappingExt pkt.tcp.destinationPort NatMappingType.tcp
          (touchConnsOf pkt.hdr.ip_src pkt.tcp.sourcePort now
            (some TcpConnState.timeWait)) nat1,
         NatTcpAction.forwardInbound pkt m)
      else
        match findConnQuery m.conns pkt.hdr.ip_src pkt.tcp.sourcePort with
        | none => (nat1, NatTcpAction.dropSilently)
        | some _ =>
          (updateFirstMappingExt pkt.tcp.destinationPort NatMappingType.tcp
            (touchConnsOf pkt.hdr.ip_src pkt.tcp.sourcePort now none) nat1,
           NatTcpAction.forwardInbound pkt m)

/-- The inbound branch of `natHandleTcpPacket`, starting from the
destination-port lookup. -/
def natHandleTcpInbound (nat : List NatMapping) (pkt : TcpIpPacket) (now : Nat) :
    List NatMapping × NatTcpAction :=
  natHandleTcpInboundCore
    (sr_nat_lookup_external nat pkt.tcp.destinationPort NatMappingType.tcp now).1
    (sr_nat_lookup_external nat pkt.tcp.destinationPort NatMappingType.tcp now).2
    pkt now

theorem natLookupTouch_fst_none (pred : NatMapping → Bool) (now : Nat) :
    ∀ l, (natLookupTouch pred now l).1 = none → (natLookupTouch pred now l).2 = l := by
  intro l
  induction l with
  | nil => intro _; rfl
  | cons m rest ih =>
    intro h
    rw [natLookupTouch] at h ⊢
    by_cases hm : pred m
    · rw [if_pos hm] at h
      exact absurd h (by simp)
    · rw [if_neg hm] at h ⊢
      simp only [List.cons.injEq, true_and]
      exact ih h

theorem find?_prefix_false {α : Type} (p : α → Bool) :
    ∀ (pre : List α) (x : α) (post : List α), (∀ y ∈ pre, p y = false) → p x = true →
      List.find? p (pre ++ x :: post) = some x := by
  intro pre
  induction pre with
  | nil =>
    intro x post _ hx
    simp [List.find?, hx]
  | cons y rest ih =>
    intro x post hall hx
    have hy : p y = false := hall y (List.mem_cons_self y rest)
    simp only [List.cons_append, List.find?, hy]
    exact ih x post (fun z hz => hall z (List.mem_cons_of_mem y hz)) hx

/-- A hit lookup leaves its own (timestamp-refreshed) copy findable at
the same position in the returned table. -/
theorem sr_nat_lookup_external_found (nat : List NatMapping) (aux : Nat)
    (t : NatMappingType) (now : Nat) (c : NatMapping)
    (h : (sr_nat_lookup_external nat aux t now).1 = some c) :
    getMappingExt (sr_nat_lookup_external nat aux t now).2 aux t = some c := by
  have hpair : natLookupTouch (natMatchExternal aux t) now nat
      = (some c, (sr_nat_lookup_external nat aux t now).2) := by
    rw [← h]
    rfl
  obtain ⟨pre, m, post, hsplit, hpre, hm, hc, htbl⟩ :=
    natLookupTouch_hit (natMatchExternal aux t) now nat c _ hpair
  rw [htbl]
  unfold getMappingExt
  rw [hc]
  exact find?_prefix_false _ pre _ post hpre hm

theorem getMappingExt_update (aux : Nat) (t : NatMappingType) (g : NatMapping → NatMapping)
    (hg : ∀ mm, natMatchExternal aux t (g mm) = natMatchExternal aux t mm) :
    ∀ l, getMappingExt (updateFirstMappingExt aux t g l) aux t
      = (getMappingExt l aux t).map g := by
  intro l
  induction l with
  | nil => rfl
  | cons m rest ih =>
    by_cases hm : natMatchExternal aux t m
    · rw [updateFirstMappingExt, if_pos hm]
      unfold getMappingExt
      rw [List.find?, hg m, hm, List.find?, hm]
      rfl
    · rw [updateFirstMappingExt, if_neg hm]
      unfold getMappingExt
      rw [List.find?, List.find?]
      rw [Bool.eq_false_iff.mpr hm]
      exact ih

/-- Claim C7 as amended: for a TCP segment received on an external
interface addressed to a router interface IP, a destination-port lookup
miss — whether or not the segment is a SYN — draws an ICMP
port-unreachable with the NAT table unchanged; on a hit the segment is
classified inbound, advancing connection state on SYN: a SYN with no
existing connection for its source peer creates a simultaneous-open
candidate in `INBOUND_SYN_PENDING` with a copy of the SYN queued and no
frame emitted, and a SYN matching an `OUTBOUND_SYN` connection advances
it to `CONNECTED` and is forwarded. -/
theorem nat_inbound_tcp_spec (ifaces : List RouterIf) (nat : List NatMapping)
    (pkt : TcpIpPacket) (now : Nat)
    (hdst : networkIpDestinationIsUs ifaces pkt.hdr = true) :
    ((sr_nat_lookup_external nat pkt.tcp.destinationPort NatMappingType.tcp now).1 = none →
      natHandleTcpInbound nat pkt now = (nat, NatTcpAction.icmpPortUnreachable pkt)) ∧
    (∀ m, (sr_nat_lookup_external nat pkt.tcp.destinationPort NatMappingType.tcp now).1 = some m →
      pkt.tcp.offset_controlBits &&& TCP_SYN_M ≠ 0 →
      findConnQuery m.conns pkt.hdr.ip_src pkt.tcp.sourcePort = none →
      (natHandleTcpInbound nat pkt now).2 = NatTcpAction.dropSilently ∧
      getMappingExt (natHandleTcpInbound nat pkt now).1 pkt.tcp.destinationPort
        NatMappingType.tcp = some (consPendingOf pkt m)) ∧
    (∀ m c, (sr_nat_lookup_external nat pkt.tcp.destinationPort NatMappingType.tcp now).1 = some m →
      pkt.tcp.offset_controlBits &&& TCP_SYN_M ≠ 0 →
      findConnQuery m.conns pkt.hdr.ip_src pkt.tcp.sourcePort = some c →
      c.connectionState = TcpConnState.outboundSyn →
      (natHandleTcpInbound nat pkt now).2 = NatTcpAction.forwardInbound pkt m ∧
      getMappingExt (natHandleTcpInbound nat pkt now).1 pkt.tcp.destinationPort
        NatMappingType.tcp
        = some (touchConnsOf pkt.hdr.ip_src pkt.tcp.sourcePort now
            (some TcpConnState.connected) m)) := by
  refine ⟨?_, ?_, ?_⟩
  · intro h
    have h2 : (sr_nat_lookup_external nat pkt.tcp.destinationPort NatMappingType.tcp now).2
        = nat := natLookupTouch_fst_none _ _ nat h
    unfold natHandleTcpInbound
    rw [h, h2]
    unfold natHandleTcpInboundCore
    split
    · rfl
    · rfl
  · intro m hm hsyn hfind
    have hstored := sr_nat_lookup_external_found nat pkt.tcp.destinationPort
      NatMappingType.tcp now m hm
    constructor
    · unfold natHandleTcpInbound natHandleTcpInboundCore
      rw [if_pos hsyn]
      simp only [hm, hfind]
    · unfold natHandleTcpInbound natHandleTcpInboundCore
      rw [if_pos hsyn]
      simp only [hm, hfind]
      rw [getMappingExt_update pkt.tcp.destinationPort NatMappingType.tcp
        (consPendingOf pkt) (fun mm => rfl), hstored]
      rfl
  · intro m c hm hsyn hfind hstate
    have hstored := sr_nat_lookup_external_found nat pkt.tcp.destinationPort
      NatMappingType.tcp now m hm
    have hnotpending : ¬ (c.connectionState = TcpConnState.inboundSynPending) := by
      rw [hstate]
      decide
    constructor
    · unfold natHandleTcpInbound natHandleTcpInboundCore
      rw [if_pos hsyn]
      simp only [hm, hfind]
      rw [if_neg hnotpending, if_pos hstate]
    · unfold natHandleTcpInbound natHandleTcpInboundCore
      rw [if_pos hsyn]
      simp only [hm, hfind]
      rw [if_neg hnotpending, if_pos hstate]
      rw [getMappingExt_update pkt.tcp.destinationPort NatMappingType.tcp
        (touchConnsOf pkt.hdr.ip_src pkt.tcp.sourcePort now
          (some TcpConnState.connected)) (fun mm => rfl), hstored]
      rfl

/-- The IP header of the concrete unsolicited inbound SYN of spec
scenario 5: `203.0.113.7` to the router's external IP `10.0.1.11`. -/
def synPktHdr : IpHeader :=
  { ip_hl := 5, ip_v := 4, ip_tos := 0, ip_len := 40, ip_id := 5, ip_off := 0,
    ip_ttl := 63, ip_p := ip_protocol_tcp, ip_sum := 0,
    ip_src := 0xCB007107, ip_dst := 0x0A00010B }

/-- The TCP header of the concrete inbound SYN: `:80` to `:50010`,
SYN bit set. -/
def synPktTcp : TcpHeader :=
  { sourcePort := 80, destinationPort := 50010, sequenceNumber := 1000,
    acknowledgmentNumber := 0, offset_controlBits := 0x5002, window := 65535,
    checksum := 0, urgentPointer := 0 }

/-- The concrete unsolicited inbound SYN segment. -/
def inboundSynPkt : TcpIpPacket :=
  { hdr := synPktHdr, options := [], tcp := synPktTcp, tcpPayload := [] }

/-- Counterexample to claim C7 as stated: on an external-interface SYN to
a router IP whose destination-port lookup misses (empty table), the code
replies with ICMP port-unreachable and creates nothing, where the claim
promises a queued simultaneous-open candidate and no emitted frame. -/
theorem nat_inbound_syn_no_mapping_counterexample :
    networkIpDestinationIsUs [eth1If, eth3If] inboundSynPkt.hdr = true ∧
    inboundSynPkt.tcp.offset_controlBits &&& TCP_SYN_M ≠ 0 ∧
    sr_nat_lookup_external [] inboundSynPkt.tcp.destinationPort NatMappingType.tcp 10
      = (none, []) ∧
    natHandleTcpInbound [] inboundSynPkt 10
      = ([], NatTcpAction.icmpPortUnreachable inboundSynPkt) ∧
    (natHandleTcpInbound [] inboundSynPkt 10).2 ≠ NatTcpAction.dropSilently := by
  decide

/-- Witness for claim C7 as amended: the same SYN against a table holding
the matching mapping queues a pending simultaneous-open connection and
emits nothing. -/
theorem nat_inbound_tcp_spec_witness :
    (natHandleTcpInbound [sampleTcpMapping] inboundSynPkt 10).2
      = NatTcpAction.dropSilently ∧
    getMappingExt (natHandleTcpInbound [sampleTcpMapping] inboundSynPkt 10).1
      inboundSynPkt.tcp.destinationPort NatMappingType.tcp
      = some (consPendingOf inboundSynPkt { sampleTcpMapping with last_updated := 10 }) :=
  (nat_inbound_tcp_spec [eth1If, eth3If] [sampleTcpMapping] inboundSynPkt 10
    (by decide)).2.1 { sampleTcpMapping with last_updated := 10 } (by decide)
    (by decide) (by decide)

/-! ## NAT echo rewriting in `sr_router.c` (`natHandleReceivedIpPacket`,
lines 750-844) and mapping creation (`sr_nat.c:natTrustedCreateMapping`) -/

/-- Full byte serialization of an ICMP-carrying datagram. -/
def serializeIcmpIpPacket (p : IcmpIpPacket) : List Nat :=
  serializeIpHeader p.hdr ++ p.options ++ serializeIcmpEcho p.icmp

/-- The IP header verification checksum of an ICMP-carrying datagram:
over `ip_hl * 4` bytes with the checksum field zeroed. -/
def icmpIpHeaderChecksum (p : IcmpIpPacket) : Nat :=
  cksum (List.take (getIpHeaderLength p.hdr)
    (serializeIcmpIpPacket { p with hdr := { p.hdr with ip_sum := 0 } }))

/-- `natTrustedCreateMapping` (`sr_nat.c:631-674`): allocate the next
external port/identifier (wrapping from `LAST_PORT_NUMBER` back to
`STARTING_PORT_NUMBER`), fill in the internal key, timestamp it and
prepend it to the table.  The source never writes `ip_ext`; the `0`
below stands for that indeterminate memory and nothing proved here
depends on it. -/
def natTrustedCreateMapping (mappings : List NatMapping) (counter : Nat)
    (ip_int aux_int : Nat) (t : NatMappingType) (now : Nat) :
    NatMapping × List NatMapping × Nat :=
  let m : NatMapping :=
    { type := t, ip_int := ip_int, ip_ext := 0, aux_int := aux_int,
      aux_ext := counter, last_updated := now, conns := [] }
  (m, m :: mappings,
   if counter + 1 > LAST_PORT_NUMBER then STARTING_PORT_NUMBER else counter + 1)

/-- The packet rewrite of `sr_router.c:natHandleReceivedIpPacket`
(lines 806-816): identifier remapped to `aux_ext`, source IP to the
mapping's `ip_ext`.  Both checksum fields are first zeroed and then the
`cksum(...)` recomputations at lines 811 and 816 have their results
discarded, so the emitted frame keeps the zeroes. -/
def natEchoRewriteSrRouter (m : NatMapping) (packet : IcmpIpPacket) : IcmpIpPacket :=
  { packet with
    icmp := { packet.icmp with ident := m.aux_ext, icmp_sum := 0 },
    hdr := { packet.hdr with ip_src := m.ip_ext, ip_sum := 0 } }

/-- The ICMP echo branch of `sr_router.c:natHandleReceivedIpPacket`
(lines 750-844): compute the forward route for the destination; on the
internal interface look the source up (inserting a fresh mapping on a
miss), otherwise look the identifier up externally; drop when no mapping
results; emit the rewritten packet along the route when one was found
whose egress interface differs from the ingress one, and drop
otherwise.  Returns the NAT state (mappings, allocator counter) and the
emitted packet with its route. -/
def srRouterNatEcho (internalIp : Nat) (mappings : List NatMapping) (counter : Nat)
    (table : List RtEntry) (packet : IcmpIpPacket) (recvIf : RouterIf) (now : Nat) :
    (List NatMapping × Nat) × Option (IcmpIpPacket × RtEntry) :=
  let lookRes :=
    if internalIp = recvIf.ip then
      match sr_nat_lookup_internal mappings packet.hdr.ip_src packet.icmp.ident
          NatMappingType.icmp now with
      | (some m, tbl) => (some m, tbl, counter)
      | (none, tbl) =>
        match natTrustedCreateMapping tbl counter packet.hdr.ip_src packet.icmp.ident
            NatMappingType.icmp now with
        | (m, tbl2, c2) => (some m, tbl2, c2)
    else
      match sr_nat_lookup_external mappings packet.icmp.ident NatMappingType.icmp now with
      | (r, tbl) => (r, tbl, counter)
  match lookRes with
  | (none, tbl, c2) => ((tbl, c2), none)
  | (some m, tbl, c2) =>
    match networkGetPacketRoute table packet.hdr.ip_dst with
    | some r =>
      if r.iface ≠ recvIf.name then ((tbl, c2), some (natEchoRewriteSrRouter m packet, r))
      else ((tbl, c2), none)
    | none => ((tbl, c2), none)

/-- The IP header of the concrete outbound echo request of spec
scenario 4: internal `10.0.1.100` pinging `8.8.8.8`. -/
def natEchoReqHdr : IpHeader :=
  { ip_hl := 5, ip_v := 4, ip_tos := 0, ip_len := 28, ip_id := 21, ip_off := 0,
    ip_ttl := 63, ip_p := ip_protocol_icmp, ip_sum := 0,
    ip_src := 0x0A000164, ip_dst := 0x08080808 }

/-- The concrete outbound echo request, identifier `0x4242`. -/
def natEchoReq : IcmpIpPacket :=
  { hdr := natEchoReqHdr,
    options := [],
    icmp := { icmp_type := icmp_type_echo_request, icmp_code := 0,
              icmp_sum := icmpChecksum sampleEchoIcmp0, ident := 0x4242,
              seq_num := 1, payload := [0xDE, 0xAD, 0xBE, 0xEF] } }

/-- The route toward `8.8.8.8` used by the NAT echo scenario. -/
def natEchoRoute : RtEntry := { dest := 0, mask := 0, gw := 0x0A000101, iface := "eth3" }

/-- The frame the NAT echo path emits for the concrete scenario. -/
def c8Out : IcmpIpPacket := natEchoRewriteSrRouter sampleIcmpMapping natEchoReq

/-- Claim C8 evaluated at a failing input: the NAT-translated echo is
emitted with a zero IP header checksum (and zero ICMP checksum) that does
not verify, because `sr_router.c:811,816` discard the recomputed
checksums. -/
theorem nat_rewrite_checksum_bug :
    (srRouterNatEcho eth1If.ip [sampleIcmpMapping] 50001 [natEchoRoute]
      natEchoReq eth1If 12).2 = some (c8Out, natEchoRoute) ∧
    c8Out.hdr.ip_sum = 0 ∧
    c8Out.icmp.icmp_sum = 0 ∧
    icmpIpHeaderChecksum c8Out ≠ c8Out.hdr.ip_sum ∧
    icmpChecksum c8Out.icmp ≠ c8Out.icmp.icmp_sum := by
  decide

/-! ## NAT translation rewriters (`sr_nat.c:natHandleReceivedOutboundIpPacket`,
`natHandleReceivedInboundIpPacket`) -/

/-- Byte serialization of the 20-byte TCP header. -/
def serializeTcpHeader (t : TcpHeader) : List Nat :=
  word16 t.sourcePort ++ word16 t.destinationPort ++ word32 t.sequenceNumber
    ++ word32 t.acknowledgmentNumber ++ word16 t.offset_controlBits
    ++ word16 t.window ++ word16 t.checksum ++ word16 t.urgentPointer

/-- `natRecalculateTcpChecksum` (`sr_nat.c:1434-1456`): the checksum over
the 12-byte pseudo-header (source, destination, zero, protocol 6, TCP
length) followed by the segment with its checksum field zeroed. -/
def tcpChecksum (p : TcpIpPacket) : Nat :=
  cksum (word32 p.hdr.ip_src ++ word32 p.hdr.ip_dst ++ [0, ip_protocol_tcp % 256]
    ++ word16 (serializeTcpHeader { p.tcp with checksum := 0 } ++ p.tcpPayload).length
    ++ (serializeTcpHeader { p.tcp with checksum := 0 } ++ p.tcpPayload))

/-- The echo-header half of the outbound rewrite: identifier to
`aux_ext`, checksum zeroed and recomputed. -/
def natOutboundEchoIcmp (m : NatMapping) (e : IcmpEcho) : IcmpEcho :=
  let e1 : IcmpEcho := { e with ident := m.aux_ext }
  { e1 with icmp_sum := icmpChecksum e1 }

/-- The echo-header half of the inbound rewrite: identifier back to
`aux_int`, checksum zeroed and recomputed. -/
def natInboundEchoIcmp (m : NatMapping) (e : IcmpEcho) : IcmpEcho :=
  let e1 : IcmpEcho := { e with ident := m.aux_int }
  { e1 with icmp_sum := icmpChecksum e1 }

/-- The outbound ICMP echo rewrite (`sr_nat.c:1250-1267`): identifier to
`aux_ext` with the ICMP checksum recomputed, source IP to the egress
interface IP selected for the destination. -/
def natOutboundEchoRewrite (m : NatMapping) (egressIp : Nat) (p : IcmpIpPacket) :
    IcmpIpPacket :=
  { p with icmp := natOutboundEchoIcmp m p.icmp, hdr := { p.hdr with ip_src := egressIp } }

/-- The inbound ICMP echo rewrite (`sr_nat.c:1349-1365`): identifier back
to `aux_int` with the ICMP checksum recomputed, destination IP back to
the mapping's internal host. -/
def natInboundEchoRewrite (m : NatMapping) (p : IcmpIpPacket) : IcmpIpPacket :=
  { p with icmp := natInboundEchoIcmp m p.icmp, hdr := { p.hdr with ip_dst := m.ip_int } }

/-- The outbound TCP rewrite (`sr_nat.c:1318-1328`): source port to
`aux_ext`, source IP to the egress interface IP, TCP checksum recomputed
over the pseudo-header. -/
def natOutboundTcpRewrite (m : NatMapping) (egressIp : Nat) (p : TcpIpPacket) :
    TcpIpPacket :=
  let p1 : TcpIpPacket :=
    { p with tcp := { p.tcp with sourcePort := m.aux_ext },
             hdr := { p.hdr with ip_src := egressIp } }
  { p1 with tcp := { p1.tcp with checksum := tcpChecksum p1 } }

/-- The inbound TCP rewrite (`sr_nat.c:1413-1422`): destination port back
to `aux_int`, destination IP back to the internal host, TCP checksum
recomputed. -/
def natInboundTcpRewrite (m : NatMapping) (p : TcpIpPacket) : TcpIpPacket :=
  let p1 : TcpIpPacket :=
    { p with tcp := { p.tcp with destinationPort := m.aux_int },
             hdr := { p.hdr with ip_dst := m.ip_int } }
  { p1 with tcp := { p1.tcp with checksum := tcpChecksum p1 } }

/-- Claim C9: for a mapping and a matched outbound/inbound pair through
it — an outbound echo whose mapping keys are its source IP and
identifier, with an inbound reply carrying the translated (external)
identifier; or an outbound TCP segment keyed by source IP and port, with
an inbound response to the translated external port — the inbound
translation restores the original internal addressing: the translated
inbound packet's IP destination equals the mapping's internal IP (the
outbound packet's source IP) and its identifier / destination port
equals the mapping's internal identifier / port (the outbound packet's
identifier / source port). -/
theorem nat_translation_round_trip (mi mt : NatMapping) (egressIp : Nat)
    (p r : IcmpIpPacket) (q s : TcpIpPacket)
    (hpIp : mi.ip_int = p.hdr.ip_src) (hpAux : mi.aux_int = p.icmp.ident)
    (hr : r.icmp.ident = mi.aux_ext)
    (hqIp : mt.ip_int = q.hdr.ip_src) (hqAux : mt.aux_int = q.tcp.sourcePort)
    (hs : s.tcp.destinationPort = mt.aux_ext) :
    ((natOutboundEchoRewrite mi egressIp p).icmp.ident = mi.aux_ext ∧
     (natInboundEchoRewrite mi r).hdr.ip_dst = mi.ip_int ∧
     (natInboundEchoRewrite mi r).hdr.ip_dst = p.hdr.ip_src ∧
     (natInboundEchoRewrite mi r).icmp.ident = mi.aux_int ∧
     (natInboundEchoRewrite mi r).icmp.ident = p.icmp.ident) ∧
    ((natOutboundTcpRewrite mt egressIp q).tcp.sourcePort = mt.aux_ext ∧
     (natInboundTcpRewrite mt s).hdr.ip_dst = mt.ip_int ∧
     (natInboundTcpRewrite mt s).hdr.ip_dst = q.hdr.ip_src ∧
     (natInboundTcpRewrite mt s).tcp.destinationPort = mt.aux_int ∧
     (natInboundTcpRewrite mt s).tcp.destinationPort = q.tcp.sourcePort) :=
  ⟨⟨rfl, rfl, by rw [← hpIp]; rfl, rfl, by rw [← hpAux]; rfl⟩,
   ⟨rfl, rfl, by rw [← hqIp]; rfl, rfl, by rw [← hqAux]; rfl⟩⟩

/-- The concrete inbound echo reply matched to `sampleIcmpMapping`
(identifier 50000, from `8.8.8.8` back to the router's external IP). -/
def natEchoReplyIn : IcmpIpPacket :=
  { hdr := { natEchoReqHdr with ip_src := 0x08080808, ip_dst := 0x0A00010B },
    options := [],
    icmp := { icmp_type := icmp_type_echo_reply, icmp_code := 0, icmp_sum := 0,
              ident := 50000, seq_num := 1, payload := [0xDE, 0xAD, 0xBE, 0xEF] } }

/-- The concrete outbound TCP segment matched to `sampleTcpMapping`
(internal `10.0.1.50:12345` to `203.0.113.7:80`). -/
def natTcpOut : TcpIpPacket :=
  { hdr := { synPktHdr with ip_src := 0x0A000132, ip_dst := 0xCB007107 },
    options := [],
    tcp := { synPktTcp with sourcePort := 12345, destinationPort := 80 },
    tcpPayload := [] }

/-- The concrete inbound TCP response matched to `sampleTcpMapping`
(`203.0.113.7:80` back to the router's external port 50010). -/
def natTcpIn : TcpIpPacket :=
  { hdr := synPktHdr, options := [],
    tcp := { synPktTcp with sourcePort := 80, destinationPort := 50010 },
    tcpPayload := [] }

/-- Witness for claim C9 at the concrete matched pairs. -/
theorem nat_translation_round_trip_witness :
    ((natOutboundEchoRewrite sampleIcmpMapping 0x0A00010B natEchoReq).icmp.ident
        = sampleIcmpMapping.aux_ext ∧
     (natInboundEchoRewrite sampleIcmpMapping natEchoReplyIn).hdr.ip_dst
        = sampleIcmpMapping.ip_int ∧
     (natInboundEchoRewrite sampleIcmpMapping natEchoReplyIn).hdr.ip_dst
        = natEchoReq.hdr.ip_src ∧
     (natInboundEchoRewrite sampleIcmpMapping natEchoReplyIn).icmp.ident
        = sampleIcmpMapping.aux_int ∧
     (natInboundEchoRewrite sampleIcmpMapping natEchoReplyIn).icmp.ident
        = natEchoReq.icmp.ident) ∧
    ((natOutboundTcpRewrite sampleTcpMapping 0x0A00010B natTcpOut).tcp.sourcePort
        = sampleTcpMapping.aux_ext ∧
     (natInboundTcpRewrite sampleTcpMapping natTcpIn).hdr.ip_dst
        = sampleTcpMapping.ip_int ∧
     (natInboundTcpRewrite sampleTcpMapping natTcpIn).hdr.ip_dst
        = natTcpOut.hdr.ip_src ∧
     (natInboundTcpRewrite sampleTcpMapping natTcpIn).tcp.destinationPort
        = sampleTcpMapping.aux_int ∧
     (natInboundTcpRewrite sampleTcpMapping natTcpIn).tcp.destinationPort
        = natTcpOut.tcp.sourcePort) :=
  nat_translation_round_trip sampleIcmpMapping sampleTcpMapping 0x0A00010B
    natEchoReq natEchoReplyIn natTcpOut natTcpIn
    (by decide) (by decide) (by decide) (by decide) (by decide) (by decide)

end CS144Router
